import Mathlib

/-!
Verification of the `lang-c` driver module (`src/driver.rs`): preprocessor
invocation, error taxonomy, syntax-error formatting and location resolution.
Machine integers that appear (line, column, offset: Rust `usize`) only ever
hold small values here and are modelled as `Nat`; byte buffers are `List Nat`.
-/

namespace LangC

/-- Bytes of a process stream. Rust `String::from_utf8` performs strict UTF-8
validation; `utf8DecodeAux` models it byte-for-byte: rejecting stray
continuation bytes, overlong encodings (leading bytes 0xC0/0xC1 and range
checks on the decoded scalar), surrogates, and scalars above 0x10FFFF.
The first argument is fuel, always instantiated with the list length. -/
def utf8DecodeAux : Nat → List Nat → Option (List Char)
  | _, [] => some []
  | 0, _ :: _ => none
  | fuel + 1, b :: rest =>
    if b < 0x80 then
      (utf8DecodeAux fuel rest).map (fun cs => Char.ofNat b :: cs)
    else if b < 0xC2 then none
    else if b < 0xE0 then
      match rest with
      | b1 :: r =>
        if 0x80 ≤ b1 ∧ b1 < 0xC0 then
          (utf8DecodeAux fuel r).map
            (fun cs => Char.ofNat ((b - 0xC0) * 0x40 + (b1 - 0x80)) :: cs)
        else none
      | [] => none
    else if b < 0xF0 then
      match rest with
      | b1 :: b2 :: r =>
        if (0x80 ≤ b1 ∧ b1 < 0xC0) ∧ (0x80 ≤ b2 ∧ b2 < 0xC0) then
          let c := (b - 0xE0) * 0x1000 + (b1 - 0x80) * 0x40 + (b2 - 0x80)
          if 0x800 ≤ c ∧ ¬(0xD800 ≤ c ∧ c < 0xE000) then
            (utf8DecodeAux fuel r).map (fun cs => Char.ofNat c :: cs)
          else none
        else none
      | _ => none
    else if b < 0xF5 then
      match rest with
      | b1 :: b2 :: b3 :: r =>
        if (0x80 ≤ b1 ∧ b1 < 0xC0) ∧ (0x80 ≤ b2 ∧ b2 < 0xC0) ∧ (0x80 ≤ b3 ∧ b3 < 0xC0) then
          let c := (b - 0xF0) * 0x40000 + (b1 - 0x80) * 0x1000
                     + (b2 - 0x80) * 0x40 + (b3 - 0x80)
          if 0x10000 ≤ c ∧ c < 0x110000 then
            (utf8DecodeAux fuel r).map (fun cs => Char.ofNat c :: cs)
          else none
        else none
      | _ => none
    else none

/-- Model of Rust `String::from_utf8`: `some` of the decoded string on valid
UTF-8 input, `none` on invalid input (the `FromUtf8Error` case). -/
def decodeUtf8 (bs : List Nat) : Option String :=
  (utf8DecodeAux bs.length bs).map List.asString

/-- C language flavors (`enum Flavor`). -/
inductive Flavor
  | StdC11
  | GnuC11
  | ClangC11
deriving DecidableEq, Repr

/-- Parser configuration (`struct Config`). -/
structure Config where
  cpp_command : String
  cpp_options : List String
  flavor : Flavor
deriving DecidableEq, Repr

/-- `Config::with_gcc`: use gcc as a pre-processor and enable gcc extensions. -/
def Config.with_gcc : Config :=
  { cpp_command := "gcc", cpp_options := ["-E"], flavor := Flavor.GnuC11 }

/-- `Config::with_clang`: use clang as a pre-processor and enable Clang
extensions. -/
def Config.with_clang : Config :=
  { cpp_command := "clang", cpp_options := ["-E"], flavor := Flavor.ClangC11 }

/-- `impl Default for Config`: the Rust impl is selected by
`cfg(target_os = "macos")`; the platform condition is the boolean argument. -/
def Config.default (target_os_is_macos : Bool) : Config :=
  if target_os_is_macos then Config.with_clang else Config.with_gcc

/-- Captured output of the external preprocessor process: `output.status`
(reduced to its `success()` bit, the only use in the source), raw stdout and
stderr bytes. -/
structure Output where
  status_success : Bool
  stdout : List Nat
  stderr : List Nat
deriving DecidableEq, Repr

/-- The operating system as an oracle: maps the spawned program name and its
argument list to the captured `Output`, or `none` when `Command::output`
itself fails (program missing, spawn error). -/
def World : Type :=
  String → List String → Option Output

/-- The `io::Error` values produced inside `preprocess`.
`spawn` stands for the error propagated from `cmd.output()`.
`stdoutInvalidUtf8` stands for `io::Error::new(Other, e)` where `e` is the
`FromUtf8Error` from decoding stdout; its display text names the invalid
byte sequence and is never the captured stderr text.
`stderrText s` stands for `io::Error::new(Other, s)` with `s` the decoded
stderr. `stderrInvalidUtf8` carries the fixed message
"cpp error contains invalid utf-8". -/
inductive IoError
  | spawn
  | stdoutInvalidUtf8
  | stderrText (msg : String)
  | stderrInvalidUtf8
deriving DecidableEq, Repr

/-- Model of `fn preprocess(config, source) -> io::Result<String>`: build the
command from `cpp_command`, push each of `cpp_options` in order, push the
source path, run it, then branch on the exit status exactly as the source
does. -/
def preprocess (config : Config) (source : String) (world : World) :
    Except IoError String :=
  match world config.cpp_command (config.cpp_options ++ [source]) with
  | none => Except.error IoError.spawn
  | some output =>
    if output.status_success then
      match decodeUtf8 output.stdout with
      | some s => Except.ok s
      | none => Except.error IoError.stdoutInvalidUtf8
    else
      match decodeUtf8 output.stderr with
      | some s => Except.error (IoError.stderrText s)
      | none => Except.error IoError.stderrInvalidUtf8

/-- Modelled from the spec: the translation-unit AST root (`ast.rs` is not
part of the sources under verification). The Driver treats it as an opaque
value, so only its identity is modelled. -/
structure TranslationUnit where
  node : Nat
deriving DecidableEq, Repr

/-- Modelled from the spec: the keyword set a fresh Environment is seeded
with, fixed by the chosen flavor (`env.rs` is not part of the sources under
verification). -/
inductive KeywordSet
  | core
  | gnu
  | clang
deriving DecidableEq, Repr

/-- Modelled from the spec: the Environment is a scope-aware symbol table
pre-seeded with the flavor extension keywords and with no pre-declared
typedefs. Only the construction surface used by the Driver is modelled. -/
structure Env where
  keywords : KeywordSet
  typedefs : List String
deriving DecidableEq, Repr

/-- Modelled from the spec: `Env::with_core()` — the strict-standard
environment, no pre-declared typedefs. -/
def Env.with_core : Env :=
  { keywords := KeywordSet.core, typedefs := [] }

/-- Modelled from the spec: `Env::with_gnu()` — GNU-extension keywords,
no pre-declared typedefs. -/
def Env.with_gnu : Env :=
  { keywords := KeywordSet.gnu, typedefs := [] }

/-- Modelled from the spec: `Env::with_clang()` — Clang-extension keywords,
no pre-declared typedefs. -/
def Env.with_clang : Env :=
  { keywords := KeywordSet.clang, typedefs := [] }

/-- The structured failure produced by the grammar engine
(`parser::translation_unit`): furthest-failure line, column, byte offset and
the expected-token set (`BTreeSet<&str>`, modelled as a `Finset String`). -/
structure RawError where
  line : Nat
  column : Nat
  offset : Nat
  expected : Finset String
deriving DecidableEq

/-- The grammar engine as an oracle: `parser::translation_unit` is outside
the driver module; the Driver calls it on the source text and a fresh
environment and only inspects the result. -/
def Engine : Type :=
  String → Env → Except RawError TranslationUnit

/-- Result of a successful parse (`struct Parse`). -/
structure Parse where
  source : String
  unit : TranslationUnit
deriving DecidableEq, Repr

/-- Syntax error during parsing (`struct SyntaxError`). -/
structure SyntaxError where
  source : String
  line : Nat
  column : Nat
  offset : Nat
  expected : Finset String
deriving DecidableEq

/-- Alias for `SyntaxError`, needed inside the `Error` declaration where the
constructor of the same name shadows the structure. -/
abbrev SyntaxErr : Type :=
  SyntaxError

/-- Error type returned from `parse` (`enum Error`). -/
inductive Error
  | PreprocessorError (e : IoError)
  | SyntaxError (e : SyntaxErr)
deriving DecidableEq

/-- `impl From<SyntaxError> for Error`. -/
def Error.from_syntax (e : SyntaxErr) : Error :=
  Error.SyntaxError e

/-- The environment construction in `parse_preprocessed`, `match config.flavor`. -/
def env_for (f : Flavor) : Env :=
  match f with
  | Flavor.StdC11 => Env.with_core
  | Flavor.GnuC11 => Env.with_gnu
  | Flavor.ClangC11 => Env.with_clang

/-- Model of `pub fn parse_preprocessed(config, source) -> Result<Parse, SyntaxError>`,
with the grammar engine passed as the oracle `tu`. -/
def parse_preprocessed (tu : Engine) (config : Config) (source : String) :
    Except SyntaxError Parse :=
  match tu source (env_for config.flavor) with
  | Except.ok unit => Except.ok { source := source, unit := unit }
  | Except.error err =>
    Except.error
      { source := source, line := err.line, column := err.column,
        offset := err.offset, expected := err.expected }

/-- Model of `pub fn parse(config, source) -> Result<Parse, Error>`: run the
preprocessor, wrap its failure as `PreprocessorError`, then delegate to
`parse_preprocessed`, lifting its failure through `From<SyntaxError>`. -/
def parse (tu : Engine) (config : Config) (source : String) (world : World) :
    Except Error Parse :=
  match preprocess config source world with
  | Except.error e => Except.error (Error.PreprocessorError e)
  | Except.ok processed =>
    match parse_preprocessed tu config processed with
    | Except.ok p => Except.ok p
    | Except.error e => Except.error (Error.from_syntax e)

/-- Modelled from the spec: a resolved original-file location, the (file
name, line number) pair returned by the Location Resolver (`loc.rs` is not
part of the sources under verification). -/
structure Location where
  file : String
  line : Nat
deriving DecidableEq, Repr

/-- Drop leading spaces of a character list. -/
def dropSpaces : List Char → List Char
  | ' ' :: rest => dropSpaces rest
  | l => l

/-- Read a nonempty run of decimal digits from the front of a character
list, returning its value and the remaining characters. -/
def readNat (l : List Char) : Option (Nat × List Char) :=
  let ds := l.takeWhile Char.isDigit
  if ds.isEmpty then none
  else some (ds.foldl (fun acc c => acc * 10 + (c.toNat - 48)) 0,
             l.dropWhile Char.isDigit)

/-- Read the whitespace-separated numeric flags that may follow the file
name of a line-marker directive. The first argument is fuel, instantiated
with the line length. -/
def readFlags : Nat → List Char → List Nat
  | 0, _ => []
  | fuel + 1, l =>
    match readNat (dropSpaces l) with
    | some (n, rest) => n :: readFlags fuel rest
    | none => []

/-- Modelled from the spec: recognize a preprocessor line-marker directive
of the form `# <line> "<file>" <flags>`, returning the stated line number,
the file name and the flag list; `none` when the line is not a well-formed
directive, in which case it is treated as ordinary text (never fatal). -/
def parseDirective (l : List Char) : Option (Nat × String × List Nat) :=
  match l with
  | '#' :: rest =>
    match readNat (dropSpaces rest) with
    | some (n, rest1) =>
      match dropSpaces rest1 with
      | '"' :: rest2 =>
        let fname := rest2.takeWhile (fun c => c != '"')
        match rest2.dropWhile (fun c => c != '"') with
        | '"' :: rest3 => some (n, fname.asString, readFlags rest3.length rest3)
        | _ => none
      | _ => none
    | none => none
  | _ => none

/-- Split a character buffer into its lines (newline separators removed);
the accumulator holds the current line reversed. -/
def splitLinesAux : List Char → List Char → List (List Char)
  | [], acc => [acc.reverse]
  | '\n' :: rest, acc => acc.reverse :: splitLinesAux rest []
  | c :: rest, acc => splitLinesAux rest (c :: acc)

/-- Modelled from the spec: the Location Resolver scan. Walk the lines of
the preprocessed text toward the line holding the target offset, tracking
the current reported (file, line) and the stack of return points: a
directive with flag 1 (entering an include) pushes the current location, a
directive with flag 2 (returning to the includer) pops it, and every
directive resets the current file and line to its stated values; an
ordinary line advances the line counter by one. -/
def getLocAux : List (List Char) → Nat → Location → List Location →
    Location × List Location
  | [], _, cur, stack => (cur, stack)
  | l :: ls, off, cur, stack =>
    if off ≤ l.length then (cur, stack)
    else
      match parseDirective l with
      | some (n, f, flags) =>
        let stack1 :=
          if 1 ∈ flags then cur :: stack
          else if 2 ∈ flags then stack.tail
          else stack
        getLocAux ls (off - (l.length + 1)) { file := f, line := n } stack1
      | none =>
        getLocAux ls (off - (l.length + 1))
          { file := cur.file, line := cur.line + 1 } stack

/-- Modelled from the spec: `loc::get_location_for_offset(source, offset)`
returns the resolved location at the offset together with the include
chain, innermost includer first. When no directive precedes the offset the
whole text belongs to the original (unnamed) file starting at line 1.
Offsets are counted in characters, which coincides with bytes on the ASCII
texts considered here. -/
def get_location_for_offset (source : String) (offset : Nat) :
    Location × List Location :=
  getLocAux (splitLinesAux source.toList []) offset { file := "", line := 1 } []

/-- Modelled from the spec: the column the Location Resolver associates
with an offset — one plus the characters since the last real newline
before the offset, not reset by directives. -/
def resolver_column (source : String) (offset : Nat) : Nat :=
  ((source.toList.take offset).reverse.takeWhile (fun c => c != '\n')).length + 1

/-- `SyntaxError::get_location`: delegate to the Location Resolver on the
stored source text and offset. -/
def SyntaxError.get_location (e : SyntaxError) : Location × List Location :=
  get_location_for_offset e.source e.offset

/-- The single-quote character, written by the `'{}'` format in
`format_expected`. -/
def squote : String :=
  String.singleton (Char.ofNat 39)

/-- The loop of `SyntaxError::format_expected`: for each token in order,
write a `", "` separator before every token but the first, then the token
wrapped in single quotes. -/
def format_expected_loop : Nat → List String → String → String
  | _, [], acc => acc
  | i, t :: ts, acc =>
    format_expected_loop (i + 1) ts
      (acc ++ (if 0 < i then ", " else "") ++ (squote ++ t ++ squote))

/-- `SyntaxError::format_expected`: iterate the expected set in sorted
order and render the quoted, comma-separated list. The source collects the
`BTreeSet` iterator (already sorted) and sorts the list again, which is the
identity there; both are modelled by the one sorted enumeration of the set. -/
def SyntaxError.format_expected (e : SyntaxError) : String :=
  format_expected_loop 0 (e.expected.sort (fun a b => a ≤ b)) ""

/-- `impl fmt::Display for SyntaxError`: write the header naming the
resolved file and line, the stored column and the expected-token list, then
append one `included from` line per include-chain entry, as the for loop in
the source does. -/
def SyntaxError.display (e : SyntaxError) : String :=
  let p := e.get_location
  p.2.foldl
    (fun acc l => acc ++ ("\n  included from " ++ l.file ++ ":" ++ toString l.line))
    ("unexpected token at \"" ++ p.1.file ++ "\" line " ++ toString p.1.line
      ++ " column " ++ toString e.column ++ ", expected " ++ e.format_expected)

/-- Concatenation of a list of strings, used to state the shape of the
rendered diagnostics. -/
def joinStrings : List String → String
  | [] => ""
  | s :: rest => s ++ joinStrings rest

/-- Comma-separated concatenation, the shape the spec prescribes for the
expected-token list. -/
def comma_separated : List String → String
  | [] => ""
  | [t] => t
  | t :: ts => t ++ ", " ++ comma_separated ts

/-- A token wrapped in single quotes. -/
def quoted (t : String) : String :=
  squote ++ t ++ squote

/-- The first line of the `SyntaxError` display: resolved file and line
from the Location Resolver, stored column, expected-token list. -/
def display_header (e : SyntaxError) : String :=
  "unexpected token at \"" ++ e.get_location.1.file ++ "\" line "
    ++ toString e.get_location.1.line ++ " column " ++ toString e.column
    ++ ", expected " ++ e.format_expected

/-- One `included from` line of the `SyntaxError` display. -/
def included_from_line (l : Location) : String :=
  "\n  included from " ++ l.file ++ ":" ++ toString l.line

theorem joinStrings_cons (s : String) (l : List String) :
    joinStrings (s :: l) = s ++ joinStrings l :=
  rfl

theorem foldl_append_join (g : Location → String) :
    ∀ (xs : List Location) (init : String),
      xs.foldl (fun acc l => acc ++ g l) init = init ++ joinStrings (xs.map g)
  | [], init => by simp [joinStrings, String.append_empty]
  | x :: xs, init => by
    simp only [List.foldl_cons, List.map_cons, joinStrings_cons]
    rw [foldl_append_join g xs (init ++ g x), String.append_assoc]

theorem format_expected_loop_ge_one :
    ∀ (l : List String) (i : Nat) (acc : String), 0 < i →
      format_expected_loop i l acc
        = acc ++ joinStrings (l.map (fun t => ", " ++ quoted t))
  | [], i, acc, _ => by
    simp [format_expected_loop, joinStrings, String.append_empty]
  | t :: ts, i, acc, h => by
    simp only [format_expected_loop, List.map_cons, joinStrings_cons, if_pos h]
    rw [format_expected_loop_ge_one ts (i + 1) _ (Nat.succ_pos i)]
    simp [quoted, String.append_assoc]

theorem comma_separated_cons :
    ∀ (x : String) (xs : List String),
      comma_separated (x :: xs) = x ++ joinStrings (xs.map (fun s => ", " ++ s))
  | x, [] => by simp [comma_separated, joinStrings, String.append_empty]
  | x, y :: ys => by
    show x ++ ", " ++ comma_separated (y :: ys) = _
    rw [comma_separated_cons y ys]
    simp [joinStrings_cons, String.append_assoc]

theorem format_expected_eq_comma (l : List String) :
    format_expected_loop 0 l "" = comma_separated (l.map quoted) := by
  cases l with
  | nil => rfl
  | cons t ts =>
    simp only [format_expected_loop, if_neg (Nat.lt_irrefl 0), List.map_cons]
    rw [format_expected_loop_ge_one ts 1 _ Nat.one_pos, comma_separated_cons,
      List.map_map]
    simp [quoted, String.empty_append, Function.comp_def, String.append_assoc]

/-- Claim C1 counterexample: with exit code zero, invalid-UTF-8 stdout and
valid UTF-8 stderr "boom", `preprocess` reports the stdout encoding failure
and not, as the claim states, an error carrying the captured stderr text. -/
theorem preprocess_stdout_utf8_counterexample :
    decodeUtf8 [255] = none
    ∧ decodeUtf8 [98, 111, 111, 109] = some "boom"
    ∧ preprocess Config.with_gcc "a.c"
          (fun g a => some { status_success := true, stdout := [255],
                             stderr := [98, 111, 111, 109] })
        = Except.error IoError.stdoutInvalidUtf8
    ∧ preprocess Config.with_gcc "a.c"
          (fun g a => some { status_success := true, stdout := [255],
                             stderr := [98, 111, 111, 109] })
        ≠ Except.error (IoError.stderrText "boom") := by
  refine ⟨by decide, by decide, rfl, ?_⟩
  intro h
  injection h with h2
  exact IoError.noConfusion h2

/-- Claim C1 (amended): `preprocess` consults the external world only at
`cpp_command` applied to the `cpp_options` in order followed by the source
path. On exit code zero with UTF-8 stdout it returns the decoded stdout;
on exit code zero with non-UTF-8 stdout it returns the stdout
encoding-failure error; on non-zero exit it returns an error carrying the
captured stderr text when stderr is UTF-8 and the fixed encoding-failure
message when it is not — never the exit code alone. -/
theorem preprocess_invocation_contract :
    ∀ (config : Config) (src : String) (w1 w2 : World),
      (w1 config.cpp_command (config.cpp_options ++ [src])
          = w2 config.cpp_command (config.cpp_options ++ [src]) →
        preprocess config src w1 = preprocess config src w2)
      ∧ (w1 config.cpp_command (config.cpp_options ++ [src]) = none →
          preprocess config src w1 = Except.error IoError.spawn)
      ∧ (∀ out, w1 config.cpp_command (config.cpp_options ++ [src]) = some out →
          (out.status_success = true →
            (∀ s, decodeUtf8 out.stdout = some s →
                preprocess config src w1 = Except.ok s)
            ∧ (decodeUtf8 out.stdout = none →
                preprocess config src w1 = Except.error IoError.stdoutInvalidUtf8))
          ∧ (out.status_success = false →
            (∀ s, decodeUtf8 out.stderr = some s →
                preprocess config src w1 = Except.error (IoError.stderrText s))
            ∧ (decodeUtf8 out.stderr = none →
                preprocess config src w1
                  = Except.error IoError.stderrInvalidUtf8))) := by
  intro config src w1 w2
  refine ⟨fun h => by unfold preprocess; rw [h], fun h => by unfold preprocess; rw [h], ?_⟩
  intro out h
  constructor
  · intro ht
    constructor
    · intro s hs
      simp [preprocess, h, ht, hs]
    · intro hn
      simp [preprocess, h, ht, hn]
  · intro ht
    constructor
    · intro s hs
      simp [preprocess, h, ht, hs]
    · intro hn
      simp [preprocess, h, ht, hn]

/-- Witness for the amended claim C1 at a concrete world: gcc exits
non-zero with stderr "boom", and the result carries exactly that text. -/
theorem preprocess_invocation_contract_witness :
    preprocess Config.with_gcc "a.c"
        (fun g a => some { status_success := false, stdout := [],
                           stderr := [98, 111, 111, 109] })
      = Except.error (IoError.stderrText "boom") :=
  (((preprocess_invocation_contract Config.with_gcc "a.c"
        (fun g a => some { status_success := false, stdout := [],
                           stderr := [98, 111, 111, 109] })
        (fun g a => some { status_success := false, stdout := [],
                           stderr := [98, 111, 111, 109] })).2.2
      { status_success := false, stdout := [], stderr := [98, 111, 111, 109] }
      rfl).2 rfl).1 "boom" (by decide)

/-- Claim C2: `Error` has exactly the two distinguishable variants
`PreprocessorError` and `SyntaxError`; `parse` returns `PreprocessorError`
exactly when preprocessing fails and `SyntaxError` exactly when
preprocessing succeeds and the grammar engine fails. -/
theorem error_taxonomy :
    (∀ err : Error,
        (∃ e, err = Error.PreprocessorError e) ∨ ∃ s, err = Error.SyntaxError s)
    ∧ (∀ e s, Error.PreprocessorError e ≠ Error.SyntaxError s)
    ∧ (∀ (tu : Engine) (config : Config) (src : String) (world : World),
        (∀ e, preprocess config src world = Except.error e →
            parse tu config src world = Except.error (Error.PreprocessorError e))
        ∧ (∀ s, preprocess config src world = Except.ok s →
            (∀ p, parse_preprocessed tu config s = Except.ok p →
                parse tu config src world = Except.ok p)
            ∧ (∀ se, parse_preprocessed tu config s = Except.error se →
                parse tu config src world
                  = Except.error (Error.SyntaxError se)))) := by
  refine ⟨?_, ?_, ?_⟩
  · intro err
    cases err with
    | PreprocessorError e => exact Or.inl ⟨e, rfl⟩
    | SyntaxError s => exact Or.inr ⟨s, rfl⟩
  · intro e s h
    exact Error.noConfusion h
  · intro tu config src world
    constructor
    · intro e h
      unfold parse
      rw [h]
    · intro s h
      constructor
      · intro p hp
        simp [parse, h, hp]
      · intro se hse
        simp [parse, h, hse, Error.from_syntax]

/-- Witness for claim C2 at a concrete engine and world: preprocessing
succeeds with stdout "i", the engine fails, and `parse` wraps the failure
in the `SyntaxError` variant. -/
theorem error_taxonomy_witness :
    parse
        (fun s env =>
          Except.error { line := 1, column := 1, offset := 0,
                         expected := (∅ : Finset String) })
        Config.with_gcc "a.c"
        (fun g a => some { status_success := true, stdout := [105], stderr := [] })
      = Except.error (Error.SyntaxError
          { source := "i", line := 1, column := 1, offset := 0,
            expected := (∅ : Finset String) }) :=
  ((error_taxonomy.2.2
      (fun s env =>
        Except.error { line := 1, column := 1, offset := 0,
                       expected := (∅ : Finset String) })
      Config.with_gcc "a.c"
      (fun g a => some { status_success := true, stdout := [105],
                         stderr := [] })).2
    "i" rfl).2
    { source := "i", line := 1, column := 1, offset := 0,
      expected := (∅ : Finset String) } rfl

/-- Claim C3: `format_expected` renders the sorted, deduplicated,
comma-separated single-quoted token list, independent of the order the
tokens were inserted into the set. -/
theorem format_expected_sorted :
    (∀ e : SyntaxError,
        e.format_expected
          = comma_separated ((e.expected.sort (fun a b => a ≤ b)).map quoted)
        ∧ (e.expected.sort (fun a b => a ≤ b)).Sorted (fun a b => a ≤ b)
        ∧ (e.expected.sort (fun a b => a ≤ b)).Nodup)
    ∧ (∀ (l1 l2 : List String) (src : String) (ln c o : Nat), l1.Perm l2 →
        SyntaxError.format_expected
            { source := src, line := ln, column := c, offset := o,
              expected := l1.toFinset }
          = SyntaxError.format_expected
              { source := src, line := ln, column := c, offset := o,
                expected := l2.toFinset }) := by
  constructor
  · intro e
    exact ⟨format_expected_eq_comma _, Finset.sort_sorted _ _, Finset.sort_nodup _ _⟩
  · intro l1 l2 src ln c o h
    have hset : l1.toFinset = l2.toFinset := by
      ext a
      simp [List.mem_toFinset, h.mem_iff]
    simp [SyntaxError.format_expected, hset]

/-- Witness for claim C3 at two concrete insertion orders of the same
token set. -/
theorem format_expected_sorted_witness :
    SyntaxError.format_expected
        { source := "", line := 0, column := 0, offset := 0,
          expected := ([";", ","] : List String).toFinset }
      = SyntaxError.format_expected
          { source := "", line := 0, column := 0, offset := 0,
            expected := ([",", ";"] : List String).toFinset } :=
  format_expected_sorted.2 [";", ","] [",", ";"] "" 0 0 0 (by decide)

/-- Claim C4: the display of a `SyntaxError` is one header line naming the
resolved file and position followed by the expected-token list, then
exactly one `included from` line per entry of the resolved include chain. -/
theorem syntax_error_display_shape :
    ∀ e : SyntaxError,
      e.display
          = display_header e
              ++ joinStrings (e.get_location.2.map included_from_line)
      ∧ (e.get_location.2.map included_from_line).length = e.get_location.2.length
      ∧ ∀ l : Location,
          included_from_line l
            = "\n  included from " ++ l.file ++ ":" ++ toString l.line := by
  intro e
  refine ⟨?_, by simp, fun l => rfl⟩
  show e.get_location.2.foldl (fun acc l => acc ++ included_from_line l)
      (display_header e) = _
  exact foldl_append_join included_from_line e.get_location.2 (display_header e)

/-- Claim C5: `parse_preprocessed` builds the environment solely from the
flavor — core for StdC11, GNU for GnuC11, Clang for ClangC11, with no
pre-declared typedefs — and on engine success returns a `Parse` holding
exactly the input text and the returned translation unit. -/
theorem parse_preprocessed_env :
    env_for Flavor.StdC11 = Env.with_core
    ∧ env_for Flavor.GnuC11 = Env.with_gnu
    ∧ env_for Flavor.ClangC11 = Env.with_clang
    ∧ (∀ f, (env_for f).typedefs = [])
    ∧ (∀ (tu : Engine) (c1 c2 : Config) (src : String),
        c1.flavor = c2.flavor →
        parse_preprocessed tu c1 src = parse_preprocessed tu c2 src)
    ∧ (∀ (tu : Engine) (config : Config) (src : String) (u : TranslationUnit),
        tu src (env_for config.flavor) = Except.ok u →
        parse_preprocessed tu config src
          = Except.ok { source := src, unit := u }) := by
  refine ⟨rfl, rfl, rfl, fun f => by cases f <;> rfl, ?_, ?_⟩
  · intro tu c1 c2 src h
    unfold parse_preprocessed
    rw [h]
  · intro tu config src u h
    unfold parse_preprocessed
    rw [h]

/-- Witness for claim C5 at a concrete engine that succeeds. -/
theorem parse_preprocessed_env_witness :
    parse_preprocessed (fun s e => Except.ok { node := 7 }) Config.with_gcc "x"
      = Except.ok { source := "x", unit := { node := 7 } } :=
  parse_preprocessed_env.2.2.2.2.2 (fun s e => Except.ok { node := 7 })
    Config.with_gcc "x" { node := 7 } rfl

/-- Claim C6: on engine failure `parse_preprocessed` stores the full source
text and the raw offset, line, column and expected set unchanged, and the
resolved location is recomputed from the stored text and offset alone. -/
theorem parse_preprocessed_failure :
    ∀ (tu : Engine) (config : Config) (src : String) (err : RawError),
      tu src (env_for config.flavor) = Except.error err →
      parse_preprocessed tu config src
          = Except.error
              { source := src, line := err.line, column := err.column,
                offset := err.offset, expected := err.expected }
      ∧ SyntaxError.get_location
            { source := src, line := err.line, column := err.column,
              offset := err.offset, expected := err.expected }
          = get_location_for_offset src err.offset := by
  intro tu config src err h
  exact ⟨by unfold parse_preprocessed; rw [h], rfl⟩

/-- Witness for claim C6 at a concrete failing engine, with the stored
offset resolved on the stored text. -/
theorem parse_preprocessed_failure_witness :
    parse_preprocessed
        (fun s e =>
          Except.error { line := 2, column := 3, offset := 5,
                         expected := (∅ : Finset String) })
        Config.with_gcc "ab\ncd\nef"
      = Except.error
          { source := "ab\ncd\nef", line := 2, column := 3, offset := 5,
            expected := (∅ : Finset String) }
    ∧ SyntaxError.get_location
          { source := "ab\ncd\nef", line := 2, column := 3, offset := 5,
            expected := (∅ : Finset String) }
        = ({ file := "", line := 2 }, []) :=
  ⟨(parse_preprocessed_failure
      (fun s e =>
        Except.error { line := 2, column := 3, offset := 5,
                       expected := (∅ : Finset String) })
      Config.with_gcc "ab\ncd\nef"
      { line := 2, column := 3, offset := 5, expected := (∅ : Finset String) }
      rfl).1,
   ((parse_preprocessed_failure
      (fun s e =>
        Except.error { line := 2, column := 3, offset := 5,
                       expected := (∅ : Finset String) })
      Config.with_gcc "ab\ncd\nef"
      { line := 2, column := 3, offset := 5, expected := (∅ : Finset String) }
      rfl).2).trans (by decide)⟩

/-- Claim C7: `parse_preprocessed` is total — for every configuration,
text and engine outcome it returns either a `Parse` or a structured
`SyntaxError`; no other outcome exists. -/
theorem parse_preprocessed_total :
    ∀ (tu : Engine) (config : Config) (src : String),
      (∃ p, parse_preprocessed tu config src = Except.ok p)
      ∨ ∃ e, parse_preprocessed tu config src = Except.error e := by
  intro tu config src
  cases h : tu src (env_for config.flavor) with
  | ok u => exact Or.inl ⟨_, by unfold parse_preprocessed; rw [h]⟩
  | error err => exact Or.inr ⟨_, by unfold parse_preprocessed; rw [h]⟩

/-- Claim C8: the default `Config` is clang on macOS and gcc elsewhere,
both with the preprocess-only flag `-E` and the matching flavor. -/
theorem config_default_platform :
    Config.default true = Config.with_clang
    ∧ Config.default false = Config.with_gcc
    ∧ Config.with_clang.cpp_command = "clang"
    ∧ Config.with_gcc.cpp_command = "gcc"
    ∧ "-E" ∈ Config.with_clang.cpp_options
    ∧ "-E" ∈ Config.with_gcc.cpp_options
    ∧ Config.with_clang.flavor = Flavor.ClangC11
    ∧ Config.with_gcc.flavor = Flavor.GnuC11 := by
  decide

/-- Claim C9: the displayed position mixes two sources — file and line come
from the Location Resolver, while the printed column is the stored naive
column field; at a concrete error the two column notions differ and the
stored one is printed. -/
theorem display_column_from_field :
    (∀ e : SyntaxError,
        e.display
          = "unexpected token at \"" ++ e.get_location.1.file ++ "\" line "
              ++ toString e.get_location.1.line ++ " column "
              ++ toString e.column ++ ", expected " ++ e.format_expected
              ++ joinStrings (e.get_location.2.map included_from_line))
    ∧ SyntaxError.column
          { source := "ab\ncd", line := 1, column := 99, offset := 4,
            expected := (∅ : Finset String) }
        = 99
    ∧ resolver_column "ab\ncd" 4 = 2
    ∧ SyntaxError.column
          { source := "ab\ncd", line := 1, column := 99, offset := 4,
            expected := (∅ : Finset String) }
        ≠ resolver_column "ab\ncd" 4
    ∧ SyntaxError.display
          { source := "ab\ncd", line := 1, column := 99, offset := 4,
            expected := (∅ : Finset String) }
        = "unexpected token at \"\" line 2 column 99, expected " := by
  refine ⟨?_, rfl, by decide, by decide, ?_⟩
  · intro e
    show e.get_location.2.foldl (fun acc l => acc ++ included_from_line l)
        (display_header e) = _
    exact foldl_append_join included_from_line e.get_location.2 (display_header e)
  · have hf : SyntaxError.format_expected
        { source := "ab\ncd", line := 1, column := 99, offset := 4,
          expected := (∅ : Finset String) } = "" := by
      show format_expected_loop 0 ((∅ : Finset String).sort (fun a b => a ≤ b)) "" = ""
      rw [Finset.sort_empty]
      rfl
    have h0 : SyntaxError.display
        { source := "ab\ncd", line := 1, column := 99, offset := 4,
          expected := (∅ : Finset String) }
        = "unexpected token at \"" ++ "" ++ "\" line " ++ toString (2 : Nat)
            ++ " column " ++ toString (99 : Nat) ++ ", expected "
            ++ SyntaxError.format_expected
                { source := "ab\ncd", line := 1, column := 99, offset := 4,
                  expected := (∅ : Finset String) } := rfl
    rw [h0, hf]
    decide

/-- Claim C10: the `From` conversion from `SyntaxError` to `Error` yields
exactly the `SyntaxError` variant with the inner value unchanged, so
matching on the variant recovers the original value. -/
theorem error_from_syntax_roundtrip :
    ∀ e : SyntaxError,
      Error.from_syntax e = Error.SyntaxError e
      ∧ (match Error.from_syntax e with
         | Error.SyntaxError s => some s
         | Error.PreprocessorError g => none) = some e :=
  fun e => ⟨rfl, rfl⟩

end LangC
